import Mathlib

/-!
Shallow embedding of `Contents/Libraries/Shared/plugin/track.py` (class `Track`)
from fuzeman/Spotify.bundle, together with theorems settling the frozen claims
about the track-session orchestrator: the stream registry and reuse matcher
(`Track.stream`), one-shot session setup (`Track.setup` and its callbacks),
the rate arbiter (`Track.limit_set`), and the playback lifecycle
(`Track.on_start`, `Track.position`, `Track.end`).

Modelling conventions:
- Python `None`-able values become `Option`; a Python dict payload with
  optional keys becomes a structure with `Option`/`Bool` fields.
- Machine integers: byte offsets and lengths are `Nat` where the source can
  only hold non-negative values, and the two distance computations of the
  matcher are done in `Int` because the Python expressions can go negative.
- Asynchronous callbacks (`on_metadata`, `on_track_uri`, `on_track_error`)
  are modelled as functions run synchronously at the point the corresponding
  wait returns; the outcome of each network interaction is supplied by an
  `Env` value.  An exception raised inside a resolver callback happens on the
  callback thread in the source, so it is recorded in an `exc` field of the
  result instead of aborting the calling computation.
- The registry `self.streams` (a Python dict keyed by `r_range.tuple()`) is
  modelled as an insertion-ordered association list with unique keys; the
  matcher's `for` loop scans it in that order.
- Wall-clock time (`time.time()`) is an explicit `now : Int` parameter
  (seconds); blocking waits with timeouts are resolved by the `Env` outcome
  (for the info fetch) or by a per-stream Boolean (`on_open`, whether
  `stream.on_open.wait(5)` returns `True`).
-/

namespace SpotifyTrack

/-- `plugin.range.Range`: byte interval with optional (unbounded) end. -/
structure Range where
  start : Nat
  end_ : Option Nat
deriving DecidableEq, Repr

/-- `Range.tuple()`: the registry key `(start, end)`. -/
def Range.tuple (r : Range) : Nat × Option Nat := (r.start, r.end_)

/-- State of an external stream handle (`stream.state`). -/
inductive StreamState
  | opening
  | reading
  | buffered
deriving DecidableEq, Repr

/-- External stream handle (`plugin.stream.Stream`), as observed by `Track`:
`index`, `range`, `len(stream.buffer)`, `stream.total_length`, whether
`stream.on_open.wait(5)` succeeds, `stream.state`, whether the reading gate
`stream.on_reading` is set, and a count of one-shot `once('buffered', ...)`
subscriptions registered on it. -/
structure Stream where
  index : Nat
  range : Range
  bufferLen : Nat
  total_length : Int
  on_open : Bool
  state : StreamState
  on_reading : Bool
  buffered_subs : Nat
deriving DecidableEq, Repr

/-- Constructor call `Stream(self, len(self.streams), r_range)`.  Only `index`
and `range` are determined by `track.py`; the remaining fields are the
external handle's initial defaults (fresh handle: empty buffer, not yet
open, `opening` state, gate set, no subscriptions). -/
def Stream.init (index : Nat) (range : Range) : Stream :=
  { index := index
    range := range
    bufferLen := 0
    total_length := 0
    on_open := false
    state := StreamState.opening
    on_reading := true
    buffered_subs := 0 }

/-- Track metadata object, as used by `Track` (duration in milliseconds;
availability and alternative lookup only drive logging in `on_metadata`). -/
structure Metadata where
  duration : Int
  is_available : Bool
  find_alternative_ok : Bool
deriving DecidableEq, Repr

/-- The stream-source info dict (`response.get('result')`): whether the
`'uri'` key is present, and the `'lid'` value when that key is present. -/
structure Info where
  hasUri : Bool
  lid : Option Int
deriving DecidableEq, Repr

/-- The resolver success payload: a dict whose `'result'` key may be absent
(`response.get('result')` then yields `None`). -/
structure Response where
  result : Option Info
deriving DecidableEq, Repr

/-- Outcome of the `metadata.track_uri(...)` resolution started by `setup`:
the success callback fires, the error callback fires, or neither fires
within the 5-second `info_ev.wait(timeout=5)`. -/
inductive TrackUriOutcome
  | success (resp : Response)
  | error
  | timeout
deriving DecidableEq, Repr

/-- Environment resolving the network interactions of one `setup` attempt. -/
structure Env where
  metadataResult : Metadata
  trackUri : TrackUriOutcome
deriving DecidableEq, Repr

/-- Observable emissions: `emit('metadata', ...)`, `emit('track_uri', ...)`,
`metadata.track_event(lid, 3, 0)` (the "started" notification),
`metadata.track_end(lid, position)` (the "ended" notification), and the
`log.warn` of an invalid `Track.end()` call. -/
inductive Event
  | metadataEv
  | trackUriEv (info : Option Info)
  | started (lid : Int)
  | ended (lid : Int) (pos : Int)
  | warnInvalidEnd
deriving DecidableEq, Repr

/-- The mutable state of a `Track` session (fields of `Track.__init__`). -/
structure Track where
  metadata : Option Metadata
  info : Option Info
  metadata_ev : Bool
  info_ev : Bool
  streams : List ((Nat × Option Nat) × Stream)
  limit_timer : Bool
  reading_start : Option Int
  playing : Bool
  ended : Bool
deriving DecidableEq, Repr

/-- A freshly constructed session (`Track.__init__`). -/
def Track.init : Track :=
  { metadata := none
    info := none
    metadata_ev := false
    info_ev := false
    streams := []
    limit_timer := false
    reading_start := none
    playing := false
    ended := false }

/-- `self.reuse_distance = 1024 * 1024`. -/
def reuse_distance : Int := 1024 * 1024

/-- `self.final_distance = 128 * 1024`. -/
def final_distance : Int := 128 * 1024

/-- `Track.on_metadata`: store the metadata, set the completion event, emit
`'metadata'`.  (Availability check, alternative lookup and restriction
enumeration only log or mutate the metadata object's own uri.) -/
def on_metadata (m : Metadata) (t : Track) : Track × List Event :=
  ({ t with metadata := some m, metadata_ev := true }, [Event.metadataEv])

/-- `Track.on_start`: no-op when already playing; otherwise schedule the
limit-reset timer, fire `metadata.track_event(self.info['lid'], 3, 0)`,
record `reading_start` and set `playing`.  Python evaluates the callable
`self.metadata.track_event` first, so with `metadata` `None` this raises
`AttributeError` before reading `self.info['lid']`; then `self.info['lid']`
raises `TypeError` when `info` is `None` and `KeyError` when the key is
absent.  The timer has already been scheduled at any of those raise
points. -/
def on_start (now : Int) (t : Track) : Track × List Event × Option String :=
  if t.playing then (t, [], none)
  else
    let t1 := { t with limit_timer := true }
    match t1.metadata with
    | none => (t1, [], some "AttributeError: NoneType has no attribute track_event")
    | some _ =>
      match t1.info with
      | none => (t1, [], some "TypeError: NoneType is not subscriptable")
      | some i =>
        match i.lid with
        | none => (t1, [], some "KeyError: lid")
        | some l =>
          ({ t1 with reading_start := some now, playing := true },
           [Event.started l], none)

/-- `Track.on_track_uri`: store `response.get('result')`, set the completion
event, emit `'track_uri'`, then run `on_start`.  This runs on the resolver
callback thread; an exception from `on_start` is recorded, not rethrown into
the thread blocked in `setup`. -/
def on_track_uri (now : Int) (resp : Response) (t : Track) :
    Track × List Event × Option String :=
  let t1 := { t with info := resp.result, info_ev := true }
  let s := on_start now t1
  (s.1, Event.trackUriEv resp.result :: s.2.1, s.2.2)

/-- `Track.on_track_error`: record `info = None`, set the completion event,
emit `'track_uri'`. -/
def on_track_error (t : Track) : Track × List Event :=
  ({ t with info := none, info_ev := true }, [Event.trackUriEv none])

/-- Result of one `Track.setup()` call: the updated session, the emissions,
how many metadata fetches and stream-source resolutions were issued by this
call, and any exception raised on the resolver callback thread. -/
structure SetupOut where
  track : Track
  events : List Event
  metadataFetches : Nat
  infoFetches : Nat
  exc : Option String
deriving DecidableEq, Repr

/-- `Track.setup()`: under the setup lock, fetch metadata if unset (blocking
until `on_metadata` fires — the source has no timeout here), then fetch the
stream-source info if unset, waiting up to 5 seconds: on success
`on_track_uri` runs, on error `on_track_error` runs, on timeout neither
does.  Calls are serialized by `self.setup_lock`, so concurrent callers are
modelled as sequential `setup` applications. -/
def setup (env : Env) (now : Int) (t : Track) : SetupOut :=
  let m :=
    match t.metadata with
    | some _ => (t, ([] : List Event), 0)
    | none =>
      let r := on_metadata env.metadataResult t
      (r.1, r.2, 1)
  match m.1.info with
  | some _ => ⟨m.1, m.2.1, m.2.2, 0, none⟩
  | none =>
    match env.trackUri with
    | TrackUriOutcome.timeout => ⟨m.1, m.2.1, m.2.2, 1, none⟩
    | TrackUriOutcome.error =>
      let r := on_track_error m.1
      ⟨r.1, m.2.1 ++ r.2, m.2.2, 1, none⟩
    | TrackUriOutcome.success resp =>
      let r := on_track_uri now resp m.1
      ⟨r.1, m.2.1 ++ r.2.1, m.2.2, 1, r.2.2⟩

/-- First-match lookup in the registry association list (`self.streams`
indexed by `r_range.tuple()`; keys are unique for reachable registries). -/
def lookupStream (streams : List ((Nat × Option Nat) × Stream))
    (key : Nat × Option Nat) : Option Stream :=
  match streams with
  | [] => none
  | e :: rest => if e.1 = key then some e.2 else lookupStream rest key

/-- Python comparison `s_end < r_range.end` on the guarded branch where both
ends are present. -/
def optLt : Option Nat → Option Nat → Bool
  | some a, some b => decide (a < b)
  | _, _ => false

/-- The body of the matcher's `for` loop for one candidate `(key, stream)`:
`True` exactly when none of the four `continue` conditions of
`Track.stream` fires, i.e.
`s_start > r_range.start`, the end-mismatch rejections, the failed
`stream.on_open.wait(5)`, and the distance heuristic
`buf_distance > self.reuse_distance and end_distance < self.final_distance`
with `buf_distance = (r_range.start - s_start) - len(stream.buffer)` and
`end_distance = stream.total_length - r_range.start`. -/
def candidatePasses (r : Range) (key : Nat × Option Nat) (s : Stream) : Bool :=
  if r.start < key.1 then false
  else if key.2 ≠ r.end_ ∧ (r.end_ = none ∨ key.2 = none) then false
  else if key.2 ≠ r.end_ ∧ optLt key.2 r.end_ = true then false
  else if s.on_open = false then false
  else
    let buf_distance : Int := ((r.start : Int) - (key.1 : Int)) - (s.bufferLen : Int)
    let end_distance : Int := s.total_length - (r.start : Int)
    decide (¬(buf_distance > reuse_distance ∧ end_distance < final_distance))

/-- The matcher's scan over the registry: return the first candidate entry
whose loop body reaches the `return self.streams[s_range]` line. -/
def scanStreams (r : Range) :
    List ((Nat × Option Nat) × Stream) → Option ((Nat × Option Nat) × Stream)
  | [] => none
  | e :: rest => if candidatePasses r e.1 e.2 then some e else scanStreams r rest

/-- Python truthiness of `self.info` followed by `'uri' not in self.info`:
the acquisition is failed when `info` is `None`, an empty dict, or lacks the
`'uri'` key — i.e. exactly when no `'uri'` entry is available. -/
def infoValid : Option Info → Bool
  | none => false
  | some i => i.hasUri

/-- `not start and not end` from `Track.limit_set`: Python treats `0` and
`None` as falsy, so this holds for key `(0, None)` and also `(0, 0)`. -/
def limitCanonical (key : Nat × Option Nat) : Bool :=
  decide (key.1 = 0) && (decide (key.2 = none) || decide (key.2 = some 0))

/-- The per-stream effect of the `limit_set` loop: streams whose key is
falsy (`not start and not end`) get their reading gate cleared
(`stream.on_reading.clear()`); every other stream gets a one-shot
`once('buffered', self.limit_buffered)` subscription. -/
def limitApply (key : Nat × Option Nat) (s : Stream) : Stream :=
  if limitCanonical key then { s with on_reading := false }
  else { s with buffered_subs := s.buffered_subs + 1 }

/-- `Track.limit_set`: no-op with fewer than two registered streams or no
stream in `reading` state; otherwise apply `limitApply` to every registered
stream. -/
def limit_set (t : Track) : Track :=
  if t.streams.length < 2 then t
  else if (t.streams.filter fun p => decide (p.2.state = StreamState.reading)).length < 1 then t
  else { t with streams := t.streams.map fun p => (p.1, limitApply p.1 p.2) }

/-- Result of one `Track.stream(r_range)` call: the updated session, the
returned value — `none` for Python `None`, `some key` for the registry
entry whose handle object is returned (registry keys are unique and never
removed, so a key identifies a handle) — the emissions, and any exception
recorded on the resolver callback thread during the in-call `setup`. -/
structure AcquireOut where
  track : Track
  result : Option (Nat × Option Nat)
  events : List Event
  exc : Option String
deriving DecidableEq, Repr

/-- `Track.stream(r_range)`: normalize an absent range to `Range(0, None)`;
under the stream lock return an exact-match entry, else scan for a
compatible candidate, else create and insert `Stream(self,
len(self.streams), r_range)`.  The exact- and compatible-match paths call
`setup` and return the entry without validating the info; the creation path
calls `setup` after the lock, fails the acquisition (returns `None`) when
`not self.info or 'uri' not in self.info`, and otherwise runs `limit_set`
and returns the new handle. -/
def streamAcquire (env : Env) (now : Int) (r0 : Option Range) (t : Track) :
    AcquireOut :=
  let r := match r0 with
    | none => Range.mk 0 none
    | some r => r
  match lookupStream t.streams r.tuple with
  | some _ =>
    let so := setup env now t
    ⟨so.track, some r.tuple, so.events, so.exc⟩
  | none =>
    match scanStreams r t.streams with
    | some e =>
      let so := setup env now t
      ⟨so.track, some e.1, so.events, so.exc⟩
    | none =>
      let ns := Stream.init t.streams.length r
      let t1 := { t with streams := t.streams ++ [(r.tuple, ns)] }
      let so := setup env now t1
      if infoValid so.track.info then
        ⟨limit_set so.track, some r.tuple, so.events, so.exc⟩
      else
        ⟨so.track, none, so.events, so.exc⟩

/-- `Track.position`: zero before `reading_start` is set (Python truthiness:
also when it is `0`), else `int((time.time() - reading_start) * 1000)`;
then clamped against `self.metadata.duration` — an access which raises
`AttributeError` when `metadata` is `None`. -/
def position (now : Int) (t : Track) : Except String Int :=
  let p : Int :=
    match t.reading_start with
    | none => 0
    | some rs => if rs = 0 then 0 else (now - rs) * 1000
  match t.metadata with
  | none => Except.error "AttributeError: NoneType has no attribute duration"
  | some m => if p > m.duration then Except.ok m.duration else Except.ok p

/-- `Track.end()`: when `not self.playing or self.ended`, log a warning and
return; otherwise read `self.position` (which can raise), fire
`metadata.track_end(self.info['lid'], self.position)` and set
`ended = True`.  `end()` runs on the caller's thread, so an exception here
propagates: it is returned as a `some` error with the state reached so
far. -/
def trackEnd (now : Int) (t : Track) : Track × List Event × Option String :=
  if ¬t.playing ∨ t.ended then (t, [Event.warnInvalidEnd], none)
  else
    match position now t with
    | Except.error e => (t, [], some e)
    | Except.ok pos =>
      match t.info with
      | none => (t, [], some "TypeError: NoneType is not subscriptable")
      | some i =>
        match i.lid with
        | none => (t, [], some "KeyError: lid")
        | some l =>
          ({ t with ended := true }, [Event.ended l pos], none)

/-- Reuse-compatibility predicate following the wording of the reuse-matcher
claim, for refinement against `candidatePasses`: the candidate's start is
not after the requested start; either the ends are equal, or both ends are
bounded with the candidate's end not smaller than the requested end; the
open-signal wait succeeds; and it is not the case that
`bufferGap = (requestedStart - candidateStart) - bufferedLength` exceeds
1,048,576 while `tailDistance = totalLength - requestedStart` is below
131,072. -/
def specCompatible (r : Range) (key : Nat × Option Nat) (s : Stream) : Bool :=
  decide (key.1 ≤ r.start) &&
  (decide (key.2 = r.end_) ||
    (match key.2, r.end_ with
     | some se, some re => decide (re ≤ se)
     | _, _ => false)) &&
  s.on_open &&
  !(decide (((r.start : Int) - (key.1 : Int)) - (s.bufferLen : Int) > reuse_distance) &&
    decide (s.total_length - (r.start : Int) < final_distance))

/-! Concrete fixtures used by counterexamples and witnesses. -/

/-- A metadata object with a 3-minute duration. -/
def mFix : Metadata := { duration := 180000, is_available := true, find_alternative_ok := true }

/-- A well-formed stream-source info dict (`'uri'` present, `'lid' = 42`). -/
def iFix : Info := { hasUri := true, lid := some 42 }

/-- An environment whose resolution attempt fires the error callback. -/
def envErr : Env := { metadataResult := mFix, trackUri := TrackUriOutcome.error }

/-- An environment whose resolution attempt times out. -/
def envTimeout : Env := { metadataResult := mFix, trackUri := TrackUriOutcome.timeout }

/-- An environment whose resolution succeeds with a well-formed payload. -/
def envOk : Env :=
  { metadataResult := mFix
    trackUri := TrackUriOutcome.success { result := some iFix } }

/-- Existing whole-track stream of the C3 scenario: range `(0, None)`, open,
empty buffer, total length 5,000,000. -/
def sWhole : Stream :=
  { index := 0
    range := { start := 0, end_ := none }
    bufferLen := 0
    total_length := 5000000
    on_open := true
    state := StreamState.reading
    on_reading := true
    buffered_subs := 0 }

/-- C3 scenario session: setup already complete, exactly one registered
stream (`sWhole`). -/
def tScenario : Track :=
  { Track.init with
    metadata := some mFix
    info := some iFix
    streams := [((0, none), sWhole)] }

/-- Session with one registered stream but stream-source info still absent
(used against the info-validation claims). -/
def tNoInfo : Track :=
  { Track.init with
    metadata := some mFix
    info := none
    streams := [((0, none), sWhole)] }

/-- Fresh session with metadata already fetched and no registered streams. -/
def tEmptyNoInfo : Track :=
  { Track.init with metadata := some mFix }

/-- A `reading` stream registered under the falsy key `(0, 0)`. -/
def sZeroZero : Stream :=
  { index := 0
    range := { start := 0, end_ := some 0 }
    bufferLen := 0
    total_length := 100
    on_open := true
    state := StreamState.reading
    on_reading := true
    buffered_subs := 0 }

/-- A second stream with a non-falsy key. -/
def sTail : Stream :=
  { index := 1
    range := { start := 5, end_ := some 9 }
    bufferLen := 0
    total_length := 100
    on_open := true
    state := StreamState.opening
    on_reading := true
    buffered_subs := 0 }

/-- Arbiter scenario: two streams, one of them `reading`, the first
registered under key `(0, 0)` — bounded end, yet falsy in Python. -/
def tArbiter : Track :=
  { Track.init with streams := [((0, some 0), sZeroZero), ((5, some 9), sTail)] }

/-- A playing session (post-`on_start`) for the lifecycle claims. -/
def tPlaying : Track :=
  { Track.init with
    metadata := some mFix
    info := some iFix
    reading_start := some 10
    playing := true }

/-! ## Helper lemmas -/

/-- `on_start` never touches the stream registry. -/
theorem on_start_streams (now : Int) (t : Track) :
    (on_start now t).1.streams = t.streams := by
  unfold on_start
  split
  · rfl
  · dsimp only
    split
    · rfl
    · split
      · rfl
      · split <;> rfl

/-- `setup` never touches the stream registry. -/
theorem setup_streams (env : Env) (now : Int) (t : Track) :
    (setup env now t).track.streams = t.streams := by
  unfold setup on_metadata on_track_error on_track_uri
  rcases t.metadata with _ | m <;> rcases h : t.info with _ | i <;>
    rcases env.trackUri with resp | _ | _ <;>
      simp_all [on_start_streams]

/-- With metadata and info both present, `setup` is a complete no-op. -/
theorem setup_noop (env : Env) (now : Int) (t : Track) (m : Metadata) (i : Info)
    (hm : t.metadata = some m) (hi : t.info = some i) :
    setup env now t = ⟨t, [], 0, 0, none⟩ := by
  unfold setup
  rw [hm]
  simp only
  rw [hi]

/-- If info is already present, `setup` leaves it unchanged. -/
theorem setup_info_of_some (env : Env) (now : Int) (t : Track) (i : Info)
    (hi : t.info = some i) :
    (setup env now t).track.info = some i := by
  unfold setup on_metadata
  rcases t.metadata with _ | m <;> simp_all

/-- First-match lookup distributes over a key-preserving map of the
registry. -/
theorem lookupStream_map (g : (Nat × Option Nat) → Stream → Stream)
    (l : List ((Nat × Option Nat) × Stream)) (k : Nat × Option Nat) :
    lookupStream (l.map fun p => (p.1, g p.1 p.2)) k =
      (lookupStream l k).map (g k) := by
  induction l with
  | nil => rfl
  | cons e rest ih =>
    by_cases h : e.1 = k
    · subst h
      simp [lookupStream]
    · simp [lookupStream, h, ih]

/-- Lookup of a key appended to a registry that does not contain it. -/
theorem lookupStream_append (l : List ((Nat × Option Nat) × Stream))
    (k : Nat × Option Nat) (s : Stream) (h : lookupStream l k = none) :
    lookupStream (l ++ [(k, s)]) k = some s := by
  induction l with
  | nil => simp [lookupStream]
  | cons e rest ih =>
    rw [List.cons_append]
    by_cases he : e.1 = k
    · rw [lookupStream, if_pos he] at h
      exact absurd h (by simp)
    · rw [lookupStream, if_neg he] at h
      rw [lookupStream, if_neg he]
      exact ih h

/-- `limit_set` only rewrites the registry values; it is either the identity
or the key-preserving `limitApply` map. -/
theorem limit_set_cases (t : Track) :
    limit_set t = t ∨
      limit_set t = { t with streams := t.streams.map fun p => (p.1, limitApply p.1 p.2) } := by
  unfold limit_set
  split
  · exact Or.inl rfl
  · split
    · exact Or.inl rfl
    · exact Or.inr rfl

/-- `limitApply` preserves a stream's index and range. -/
theorem limitApply_index_range (k : Nat × Option Nat) (s : Stream) :
    (limitApply k s).index = s.index ∧ (limitApply k s).range = s.range := by
  unfold limitApply
  split <;> exact ⟨rfl, rfl⟩


theorem candidatePasses_eq_spec (r : Range) (key : Nat × Option Nat) (s : Stream) :
    candidatePasses r key s = specCompatible r key s := by
  obtain ⟨ks, ke⟩ := key
  unfold candidatePasses specCompatible optLt
  by_cases h1 : r.start < ks
  · simp [h1, Nat.not_le.mpr h1]
  · rw [if_neg h1]
    have h2 : ks ≤ r.start := Nat.not_lt.mp h1
    by_cases heq : ke = r.end_
    · subst heq
      simp only [ne_eq, not_true_eq_false, false_and, if_false, decide_eq_true_eq]
      by_cases ho : s.on_open <;> simp [ho, h2, ← decide_not, not_lt]
    · rcases hre : r.end_ with _ | re <;> rcases hke : ke with _ | se
      · subst hke; simp [hre] at heq
      · simp_all
      · simp_all
      · subst hke
        simp only [hre] at heq ⊢
        simp only [ne_eq, heq, not_false_eq_true, true_and, Option.some.injEq]
        by_cases hlt : se < re
        · simp [hlt, Nat.not_le.mpr hlt, heq]
        · have h3 : re ≤ se := Nat.not_lt.mp hlt
          simp only [decide_eq_true_eq, hlt, if_false]
          by_cases ho : s.on_open <;> simp [ho, h2, h3, heq, ← decide_not, not_lt]


theorem scanStreams_eq_find (r : Range) (l : List ((Nat × Option Nat) × Stream)) :
    scanStreams r l = l.find? fun p => specCompatible r p.1 p.2 := by
  induction l with
  | nil => rfl
  | cons e rest ih =>
    rw [scanStreams, candidatePasses_eq_spec]
    cases h : specCompatible r e.1 e.2 <;> simp [h, ih, List.find?]


/-- Claim C1 (confirmed): for every acquireStream request whose range has no
exact match in the registry, a registered candidate stream is reused if and
only if, scanned in order, it is the first whose start is not after the
requested start; whose ends are equal or both bounded with the candidate's
end not smaller than the requested end (differing open-ness always rejects);
whose open-signal wait succeeds; and for which it is not the case that
bufferGap exceeds 1,048,576 while tailDistance is below 131,072.  If every
candidate is rejected, a new stream with range = requestedRange and
index = current registry size is created and inserted into the registry. -/
theorem c1_reuse_matcher_policy (env : Env) (now : Int) (r : Range) (t : Track)
    (hx : lookupStream t.streams r.tuple = none) :
    scanStreams r t.streams = (t.streams.find? fun p => specCompatible r p.1 p.2) ∧
    (∀ e, scanStreams r t.streams = some e →
       (streamAcquire env now (some r) t).result = some e.1 ∧
       (streamAcquire env now (some r) t).track.streams = t.streams) ∧
    (scanStreams r t.streams = none →
       ∃ ns, lookupStream (streamAcquire env now (some r) t).track.streams r.tuple = some ns ∧
         ns.index = t.streams.length ∧ ns.range = r ∧
         (streamAcquire env now (some r) t).track.streams.length = t.streams.length + 1) := by
  refine ⟨scanStreams_eq_find r t.streams, ?_, ?_⟩
  · intro e he
    simp only [streamAcquire, hx, he]
    exact ⟨trivial, setup_streams env now t⟩
  · intro hscan
    simp only [streamAcquire, hx, hscan]
    generalize hset : setup env now { t with streams := t.streams ++ [(r.tuple, Stream.init t.streams.length r)] } = so
    have hss : so.track.streams = t.streams ++ [(r.tuple, Stream.init t.streams.length r)] := by
      rw [← hset]; exact setup_streams env now _
    have hlk : lookupStream so.track.streams r.tuple = some (Stream.init t.streams.length r) := by
      rw [hss]; exact lookupStream_append _ _ _ hx
    by_cases hinfo : infoValid so.track.info = true
    · simp only [hinfo, if_true]
      rcases limit_set_cases so.track with hcase | hcase
      · refine ⟨Stream.init t.streams.length r, ?_, rfl, rfl, ?_⟩
        · simpa [hcase] using hlk
        · simp [hcase, hss]
      · refine ⟨limitApply r.tuple (Stream.init t.streams.length r), ?_, ?_, ?_, ?_⟩
        · show lookupStream (limit_set so.track).streams r.tuple = _
          rw [hcase]
          show lookupStream (so.track.streams.map fun p => (p.1, limitApply p.1 p.2)) r.tuple = _
          rw [lookupStream_map, hss, lookupStream_append _ _ _ hx]
          rfl
        · rw [(limitApply_index_range _ _).1]; rfl
        · rw [(limitApply_index_range _ _).2]; rfl
        · show (limit_set so.track).streams.length = _
          rw [hcase]
          simp [hss]
    · simp only [hinfo, if_false]
      exact ⟨Stream.init t.streams.length r, hlk, rfl, rfl, by simp [hss]⟩


/-- Witness for C1 at a concrete session and range. -/
theorem c1_witness :
    lookupStream tScenario.streams (Range.mk 2000000 none).tuple = none ∧
    scanStreams (Range.mk 2000000 none) tScenario.streams =
      (tScenario.streams.find? fun p =>
        specCompatible (Range.mk 2000000 none) p.1 p.2) :=
  ⟨by decide,
   (c1_reuse_matcher_policy envTimeout 0 (Range.mk 2000000 none) tScenario (by decide)).1⟩

/-- Counterexample to C3: on a session with exactly one registered stream of
range (0, unbounded), empty buffer and totalLength 5,000,000, the request
(2,000,000, unbounded) does NOT create a new stream: the registry keeps one
entry and the existing stream is returned. -/
theorem c3_counterexample :
    (streamAcquire envTimeout 0 (some (Range.mk 2000000 none)) tScenario).track.streams.length = 1 ∧
    (streamAcquire envTimeout 0 (some (Range.mk 2000000 none)) tScenario).result =
      some ((0 : Nat), (none : Option Nat)) := by
  decide

/-- Claim C3 (corrected): in the scenario of the claim the request REUSES
the existing stream and the registry keeps a single entry, because rejection
requires bufferGap > 1,048,576 AND tailDistance < 131,072, and here
tailDistance = 3,000,000 ≥ 131,072 even though bufferGap = 2,000,000 exceeds
the reuse threshold. -/
theorem c3_amended_theorem :
    streamAcquire envTimeout 0 (some (Range.mk 2000000 none)) tScenario =
      ⟨tScenario, some ((0 : Nat), (none : Option Nat)), [], none⟩ ∧
    ((2000000 : Int) - 0) - (sWhole.bufferLen : Int) > reuse_distance ∧
    sWhole.total_length - (2000000 : Int) ≥ final_distance := by
  refine ⟨?_, by decide, by decide⟩
  decide

/-- Counterexample to C6: a reading stream registered under key (0, 0) — a
bounded range, not equal to the canonical (0, unbounded) shape — still gets
its reading-gate cleared and receives no buffered subscription, because the
code tests Python falsiness (`not start and not end`). -/
theorem c6_counterexample :
    (limit_set tArbiter).streams =
      [((0, some 0), { sZeroZero with on_reading := false }),
       ((5, some 9), { sTail with buffered_subs := 1 })] ∧
    sZeroZero.range.end_ ≠ none := by
  decide

/-- Counterexample to C8: on a fresh session (playback not started, metadata
absent) reading `position` raises AttributeError instead of returning 0. -/
theorem c8_counterexample :
    Track.init.reading_start = none ∧
    position 0 Track.init =
      Except.error "AttributeError: NoneType has no attribute duration" := by
  exact ⟨rfl, rfl⟩

/-- Counterexample to C9: on a session whose metadata is already fetched (as
in every callback issued by `setup`), a resolver success payload whose
result lacks the source-locator field ('uri') but carries a track-log
identifier triggers playback-start: playing becomes true and the started
event is emitted. -/
theorem c9_counterexample :
    (Info.mk false (some 7)).hasUri = false ∧
    (on_track_uri 0 (Response.mk (some (Info.mk false (some 7)))) tEmptyNoInfo).1.playing = true ∧
    (on_track_uri 0 (Response.mk (some (Info.mk false (some 7)))) tEmptyNoInfo).2.1 =
      [Event.trackUriEv (some (Info.mk false (some 7))), Event.started 7] := by
  decide

/-- Counterexample to C4: after a resolution attempt that fires the error
callback, the session stores no "no info" marker (info stays None), and a
second setup call issues a second stream-source resolution — two resolutions
for two serialized callers. -/
theorem c4_counterexample :
    (setup envErr 0 Track.init).infoFetches = 1 ∧
    (setup envErr 0 Track.init).track.info = none ∧
    (setup envErr 0 (setup envErr 0 Track.init).track).infoFetches = 1 := by
  decide

/-- Counterexample to C2: while stream-source info is absent, an
acquireStream call whose range exactly matches a registered stream returns
that stream, not absent. -/
theorem c2_counterexample :
    tNoInfo.info = none ∧
    (streamAcquire envErr 0 (some (Range.mk 0 none)) tNoInfo).track.info = none ∧
    (streamAcquire envErr 0 (some (Range.mk 0 none)) tNoInfo).result =
      some ((0 : Nat), (none : Option Nat)) ∧
    (streamAcquire envErr 0 (some (Range.mk 0 none)) tNoInfo).exc = none := by
  decide

/-- Counterexample to C5: with info absent, the first acquireStream call
creates a stream but returns None, while the second call with the identical
range returns the created handle — the two successive calls do not return
the same value. -/
theorem c5_counterexample :
    (streamAcquire envErr 0 (some (Range.mk 0 none)) tEmptyNoInfo).result = none ∧
    (streamAcquire envErr 0 (some (Range.mk 0 none))
        (streamAcquire envErr 0 (some (Range.mk 0 none)) tEmptyNoInfo).track).result =
      some ((0 : Nat), (none : Option Nat)) := by
  decide


theorem on_start_info (now : Int) (t : Track) : (on_start now t).1.info = t.info := by
  unfold on_start
  split
  · rfl
  · dsimp only
    split
    · rfl
    · split
      · rfl
      · split <;> rfl

theorem on_start_metadata (now : Int) (t : Track) :
    (on_start now t).1.metadata = t.metadata := by
  unfold on_start
  split
  · rfl
  · dsimp only
    split
    · rfl
    · split
      · rfl
      · split <;> rfl

theorem setup_metadata (env : Env) (now : Int) (t : Track) :
    (setup env now t).track.metadata =
      (match t.metadata with
       | some m => some m
       | none => some env.metadataResult) := by
  unfold setup on_metadata on_track_error on_track_uri
  rcases hm : t.metadata with _ | m <;> rcases h : t.info with _ | i <;>
    rcases henv : env.trackUri with resp | _ | _ <;>
      simp_all [on_start_metadata, on_start_info]

theorem setup_metadataFetches (env : Env) (now : Int) (t : Track) :
    (setup env now t).metadataFetches =
      (match t.metadata with | some _ => 0 | none => 1) := by
  unfold setup on_metadata on_track_error on_track_uri
  rcases hm : t.metadata with _ | m <;> rcases h : t.info with _ | i <;>
    rcases henv : env.trackUri with resp | _ | _ <;>
      simp_all [on_start_metadata, on_start_info]

theorem setup_infoFetches (env : Env) (now : Int) (t : Track) :
    (setup env now t).infoFetches =
      (match t.info with | some _ => 0 | none => 1) := by
  unfold setup on_metadata on_track_error on_track_uri
  rcases hm : t.metadata with _ | m <;> rcases h : t.info with _ | i <;>
    rcases henv : env.trackUri with resp | _ | _ <;>
      simp_all [on_start_metadata, on_start_info]

theorem setup_info (env : Env) (now : Int) (t : Track) :
    (setup env now t).track.info =
      (match t.info with
       | some i => some i
       | none =>
         match env.trackUri with
         | TrackUriOutcome.success resp => resp.result
         | TrackUriOutcome.error => none
         | TrackUriOutcome.timeout => none) := by
  unfold setup on_metadata on_track_error on_track_uri
  rcases hm : t.metadata with _ | m <;> rcases h : t.info with _ | i <;>
    rcases henv : env.trackUri with resp | _ | _ <;>
      simp_all [on_start_info]

/-- Claim C4 (corrected): the metadata fetch is issued at most once across
serialized setup calls (its callback always stores the metadata), and after
a resolution success with a present result every subsequent call issues no
further resolution; but an error or timeout stores no "no info" marker —
info remains unset and the next setup call issues the resolution again. -/
theorem c4_amended_setup_once (env env2 : Env) (now now2 : Int) (t : Track) :
    (t.metadata.isSome = true → (setup env now t).metadataFetches = 0) ∧
    (setup env now t).track.metadata.isSome = true ∧
    (setup env2 now2 (setup env now t).track).metadataFetches = 0 ∧
    (t.info.isSome = true → (setup env now t).infoFetches = 0) ∧
    (∀ resp i, env.trackUri = TrackUriOutcome.success resp → resp.result = some i →
       (∃ j, (setup env now t).track.info = some j) ∧
       (setup env2 now2 (setup env now t).track).infoFetches = 0) ∧
    (t.info = none →
     (env.trackUri = TrackUriOutcome.error ∨ env.trackUri = TrackUriOutcome.timeout) →
       (setup env now t).track.info = none ∧
       (setup env2 now2 (setup env now t).track).infoFetches = 1) := by
  refine ⟨?_, ?_, ?_, ?_, ?_, ?_⟩
  · intro h
    rw [setup_metadataFetches]
    rcases hm : t.metadata with _ | m
    · rw [hm] at h; simp at h
    · rfl
  · rw [setup_metadata]
    rcases t.metadata with _ | m <;> rfl
  · rw [setup_metadataFetches, setup_metadata]
    rcases t.metadata with _ | m <;> rfl
  · intro h
    rw [setup_infoFetches]
    rcases hi : t.info with _ | i
    · rw [hi] at h; simp at h
    · rfl
  · intro resp i hresp hres
    have hsome : ∃ j, (setup env now t).track.info = some j := by
      rw [setup_info, hresp]
      rcases hi : t.info with _ | j
      · exact ⟨i, hres⟩
      · exact ⟨j, rfl⟩
    refine ⟨hsome, ?_⟩
    obtain ⟨j, hj⟩ := hsome
    rw [setup_infoFetches, hj]
  · intro hi hout
    have h1 : (setup env now t).track.info = none := by
      rw [setup_info, hi]
      rcases hout with h | h <;> rw [h]
    refine ⟨h1, ?_⟩
    rw [setup_infoFetches, h1]


/-- Claim C2 (corrected): only a call that takes the new-stream path returns
absent (None, never an exception) when the post-setup stream-source info is
absent or lacks its 'uri'; calls that hit an exact or compatible match
return the registered stream without validating the info. -/
theorem c2_amended_info_validation (env : Env) (now : Int) (r : Range) (t : Track) :
    (∀ s, lookupStream t.streams r.tuple = some s →
       (streamAcquire env now (some r) t).result = some r.tuple) ∧
    (lookupStream t.streams r.tuple = none →
       ∀ e, scanStreams r t.streams = some e →
         (streamAcquire env now (some r) t).result = some e.1) ∧
    (lookupStream t.streams r.tuple = none →
       scanStreams r t.streams = none →
       infoValid (setup env now
         { t with streams :=
             t.streams ++ [(r.tuple, Stream.init t.streams.length r)] }).track.info = false →
       (streamAcquire env now (some r) t).result = none) := by
  refine ⟨?_, ?_, ?_⟩
  · intro s hs
    simp [streamAcquire, hs]
  · intro hx e he
    simp [streamAcquire, hx, he]
  · intro hx hscan hinfo
    simp [streamAcquire, hx, hscan, hinfo]

/-- Claim C9 (corrected): on a session holding metadata (true of every
resolver callback issued by `setup`, which resolves metadata first), a
success payload lacking its result, or whose result lacks the track-log
identifier, raises on the callback thread (TypeError / KeyError) after the
fallback timer has been scheduled — playing stays false and no started
event is emitted; a payload with an identifier but without the source
locator DOES trigger playback-start: playing becomes true and the started
event is emitted. -/
theorem c9_amended_resolver_payload (now : Int) (t : Track) (resp : Response)
    (h : t.playing = false) (hm : t.metadata.isSome = true) :
    (resp.result = none →
       (on_track_uri now resp t).2.2.isSome = true ∧
       (on_track_uri now resp t).1.playing = false ∧
       (on_track_uri now resp t).2.1 = [Event.trackUriEv none] ∧
       (on_track_uri now resp t).1.limit_timer = true) ∧
    (∀ i, resp.result = some i → i.lid = none →
       (on_track_uri now resp t).2.2.isSome = true ∧
       (on_track_uri now resp t).1.playing = false ∧
       (on_track_uri now resp t).2.1 = [Event.trackUriEv (some i)] ∧
       (on_track_uri now resp t).1.limit_timer = true) ∧
    (∀ i l, resp.result = some i → i.lid = some l →
       (on_track_uri now resp t).2.2 = none ∧
       (on_track_uri now resp t).1.playing = true ∧
       (on_track_uri now resp t).2.1 =
         [Event.trackUriEv (some i), Event.started l]) := by
  obtain ⟨m, hm2⟩ := Option.isSome_iff_exists.mp hm
  refine ⟨?_, ?_, ?_⟩
  · intro hres
    simp [on_track_uri, on_start, h, hm2, hres]
  · intro i hres hlid
    simp [on_track_uri, on_start, h, hm2, hres, hlid]
  · intro i l hres hlid
    simp [on_track_uri, on_start, h, hm2, hres, hlid]

/-- Claim C8 (corrected): when metadata is present (with non-negative
duration and a clock not before the recorded start), position returns 0
before playback start and otherwise the elapsed milliseconds clamped to the
duration, always within [0, duration]; with metadata absent it raises
(see the counterexample). -/
theorem c8_amended_position (now : Int) (t : Track) (m : Metadata)
    (hm : t.metadata = some m) (hd : 0 ≤ m.duration)
    (hs : ∀ rs, t.reading_start = some rs → 0 < rs ∧ rs ≤ now) :
    ∃ p, position now t = Except.ok p ∧ 0 ≤ p ∧ p ≤ m.duration ∧
      (t.reading_start = none → p = 0) ∧
      (∀ rs, t.reading_start = some rs →
        p = min ((now - rs) * 1000) m.duration) := by
  obtain ⟨mm, ii, mev, iev, str, ltm, rst, pl, en⟩ := t
  simp only at hm hs
  subst hm
  rcases rst with _ | rs
  · refine ⟨0, ?_, le_refl 0, hd, fun _ => rfl, ?_⟩
    · unfold position
      dsimp only
      rw [if_neg (not_lt.mpr hd)]
    · intro rs hcon
      simp at hcon
  · obtain ⟨hpos, hle⟩ := hs rs rfl
    have hne : ¬rs = 0 := by omega
    refine ⟨min ((now - rs) * 1000) m.duration, ?_, ?_, min_le_right _ _, ?_, ?_⟩
    · unfold position
      dsimp only
      rw [if_neg hne]
      by_cases hgt : (now - rs) * 1000 > m.duration
      · rw [if_pos hgt, min_eq_right (le_of_lt hgt)]
      · rw [if_neg hgt, min_eq_left (not_lt.mp hgt)]
    · have hnn : (0 : Int) ≤ (now - rs) * 1000 :=
        mul_nonneg (by omega) (by norm_num)
      exact le_min hnn hd
    · intro hcon
      simp at hcon
    · intro rs2 h2
      have h3 : rs = rs2 := by simpa using h2
      subst h3
      rfl

/-- Claim C6 (corrected): reevaluate() is the identity when fewer than two
streams are registered or no registered stream is reading; otherwise it
clears the reading-gate of exactly those streams whose key has start 0 and a
falsy end — unbounded OR the bounded value 0 — and registers a one-shot
buffered subscription on every other stream. -/
theorem c6_amended_arbiter (t : Track) :
    ((t.streams.length < 2 ∨ ∀ p ∈ t.streams, p.2.state ≠ StreamState.reading) →
       limit_set t = t) ∧
    (2 ≤ t.streams.length →
     (∃ p ∈ t.streams, p.2.state = StreamState.reading) →
       limit_set t =
         { t with streams := t.streams.map fun p =>
             if p.1.1 = 0 ∧ (p.1.2 = none ∨ p.1.2 = some 0) then
               (p.1, { p.2 with on_reading := false })
             else
               (p.1, { p.2 with buffered_subs := p.2.buffered_subs + 1 }) }) := by
  constructor
  · intro h
    unfold limit_set
    rcases h with h | h
    · rw [if_pos h]
    · by_cases hlen : t.streams.length < 2
      · rw [if_pos hlen]
      · rw [if_neg hlen]
        have hnil : t.streams.filter (fun p => decide (p.2.state = StreamState.reading)) = [] := by
          rw [List.filter_eq_nil_iff]
          intro a ha
          simp [h a ha]
        rw [hnil]
        simp
  · intro h1 h2
    unfold limit_set
    rw [if_neg (by omega : ¬t.streams.length < 2)]
    obtain ⟨p, hp, hstate⟩ := h2
    have hmem : p ∈ t.streams.filter (fun q => decide (q.2.state = StreamState.reading)) :=
      List.mem_filter.mpr ⟨hp, by simp [hstate]⟩
    have hlen : 0 < (t.streams.filter (fun q => decide (q.2.state = StreamState.reading))).length :=
      List.length_pos_of_mem hmem
    rw [if_neg (by omega : ¬(t.streams.filter fun q => decide (q.2.state = StreamState.reading)).length < 1)]
    have hfun : (fun p : (Nat × Option Nat) × Stream => (p.1, limitApply p.1 p.2)) =
        (fun p : (Nat × Option Nat) × Stream =>
          if p.1.1 = 0 ∧ (p.1.2 = none ∨ p.1.2 = some 0) then
            (p.1, { p.2 with on_reading := false })
          else
            (p.1, { p.2 with buffered_subs := p.2.buffered_subs + 1 })) := by
      funext q
      unfold limitApply limitCanonical
      by_cases hc : q.1.1 = 0 ∧ (q.1.2 = none ∨ q.1.2 = some 0)
      · rw [if_pos hc]
        have : (decide (q.1.1 = 0) && (decide (q.1.2 = none) || decide (q.1.2 = some 0))) = true := by
          obtain ⟨hl, hr⟩ := hc
          rcases hr with hr | hr <;> simp [hl, hr]
        rw [if_pos this]
      · rw [if_neg hc]
        have : ¬(decide (q.1.1 = 0) && (decide (q.1.2 = none) || decide (q.1.2 = some 0))) = true := by
          intro hcon
          apply hc
          simp only [Bool.and_eq_true, Bool.or_eq_true, decide_eq_true_eq] at hcon
          exact hcon
        rw [if_neg this]
    rw [hfun]


/-- Claim C7 (confirmed): end() emits exactly one ended notification
(carrying the current position) and sets ended = true if and only if it is
called while playing and not yet ended; a second call, and any call while
not playing or already ended, emits only a logged warning, changes no state
and raises nothing.  (The hypothesis reflects the invariant of reachable
states: playing sessions acquired metadata and a track-log identifier in
on_start.) -/
theorem c7_end_effective_once (now now2 : Int) (t : Track)
    (h : t.playing = true →
      (∃ m, t.metadata = some m) ∧ ∃ i l, t.info = some i ∧ i.lid = some l) :
    ((t.playing = true ∧ t.ended = false) →
       (trackEnd now t).2.2 = none ∧
       (trackEnd now t).1 = { t with ended := true } ∧
       (∃ l p, (trackEnd now t).2.1 = [Event.ended l p] ∧
          position now t = Except.ok p) ∧
       (trackEnd now2 (trackEnd now t).1).1 = (trackEnd now t).1 ∧
       (trackEnd now2 (trackEnd now t).1).2.1 = [Event.warnInvalidEnd]) ∧
    (¬(t.playing = true ∧ t.ended = false) →
       (trackEnd now t).1 = t ∧
       (trackEnd now t).2.1 = [Event.warnInvalidEnd] ∧
       (trackEnd now t).2.2 = none) := by
  constructor
  · rintro ⟨hp, he⟩
    obtain ⟨⟨m, hm⟩, i, l, hi, hl⟩ := h hp
    have hpo : ∃ p, position now t = Except.ok p := by
      unfold position
      rw [hm]
      dsimp only
      split
      · exact ⟨_, rfl⟩
      · exact ⟨_, rfl⟩
    obtain ⟨p, hp2⟩ := hpo
    have hfirst : trackEnd now t = ({ t with ended := true }, [Event.ended l p], none) := by
      unfold trackEnd
      rw [if_neg (by simp [hp, he]), hp2, hi]
      dsimp only
      rw [hl]
    refine ⟨by rw [hfirst], by rw [hfirst], ⟨l, p, by rw [hfirst], hp2⟩, ?_, ?_⟩
    · rw [hfirst]
      unfold trackEnd
      rw [if_pos (by simp)]
    · rw [hfirst]
      unfold trackEnd
      rw [if_pos (by simp)]
  · intro hn
    have hc : ¬t.playing = true ∨ t.ended = true := by
      by_cases hp : t.playing = true
      · by_cases he : t.ended = true
        · exact Or.inr he
        · have he2 : t.ended = false := by
            revert he
            cases t.ended <;> simp
          exact absurd ⟨hp, he2⟩ hn
      · exact Or.inl hp
    have hfirst : trackEnd now t = (t, [Event.warnInvalidEnd], none) := by
      unfold trackEnd
      rw [if_pos (by simpa using hc)]
    exact ⟨by rw [hfirst], by rw [hfirst], by rw [hfirst]⟩


/-- Claim C10 (confirmed): when acquireStream creates a new stream and then
returns absent because stream-source info is absent or lacks its locator,
the created handle remains registered, and a subsequent acquireStream call
with the identical range returns that handle via the exact-match path
without re-validating the info. -/
theorem c10_failed_acquisition_registry (env env2 : Env) (now now2 : Int)
    (r : Range) (t : Track)
    (h1 : (streamAcquire env now (some r) t).result = none) :
    (streamAcquire env now (some r) t).track.streams =
      t.streams ++ [(r.tuple, Stream.init t.streams.length r)] ∧
    infoValid (streamAcquire env now (some r) t).track.info = false ∧
    (streamAcquire env2 now2 (some r)
        (streamAcquire env now (some r) t).track).result = some r.tuple ∧
    (streamAcquire env2 now2 (some r)
        (streamAcquire env now (some r) t).track).track.streams =
      (streamAcquire env now (some r) t).track.streams := by
  have hx : lookupStream t.streams r.tuple = none := by
    rcases hl : lookupStream t.streams r.tuple with _ | s
    · rfl
    · simp [streamAcquire, hl] at h1
  have hscan : scanStreams r t.streams = none := by
    rcases hsc : scanStreams r t.streams with _ | e
    · rfl
    · simp [streamAcquire, hx, hsc] at h1
  have hinfo : infoValid (setup env now
      { t with streams :=
          t.streams ++ [(r.tuple, Stream.init t.streams.length r)] }).track.info = false := by
    rcases hv : infoValid (setup env now
        { t with streams :=
            t.streams ++ [(r.tuple, Stream.init t.streams.length r)] }).track.info with _ | _
    · rfl
    · simp [streamAcquire, hx, hscan, hv] at h1
  have hfirst : streamAcquire env now (some r) t =
      ⟨(setup env now
          { t with streams :=
              t.streams ++ [(r.tuple, Stream.init t.streams.length r)] }).track,
        none,
        (setup env now
          { t with streams :=
              t.streams ++ [(r.tuple, Stream.init t.streams.length r)] }).events,
        (setup env now
          { t with streams :=
              t.streams ++ [(r.tuple, Stream.init t.streams.length r)] }).exc⟩ := by
    simp [streamAcquire, hx, hscan, hinfo]
  have hss : (streamAcquire env now (some r) t).track.streams =
      t.streams ++ [(r.tuple, Stream.init t.streams.length r)] := by
    rw [hfirst]
    exact setup_streams env now _
  have hlk2 : lookupStream (streamAcquire env now (some r) t).track.streams r.tuple =
      some (Stream.init t.streams.length r) := by
    rw [hss]
    exact lookupStream_append _ _ _ hx
  refine ⟨hss, by rw [hfirst]; exact hinfo, ?_, ?_⟩
  · generalize hT : (streamAcquire env now (some r) t).track = T1 at hlk2 ⊢
    simp [streamAcquire, hlk2]
  · generalize hT : (streamAcquire env now (some r) t).track = T1 at hlk2 ⊢
    have hst := setup_streams env2 now2 T1
    simp [streamAcquire, hlk2, hst]

/-- Claim C5 (corrected): two successive acquireStream calls with the same
range add at most one registry entry and the second call never constructs a
new stream; when stream-source info is present with its locator (and
metadata present) the two calls return the same stream handle.  (With info
absent the first creation-path call returns None while the second returns
the created handle — see the counterexample.) -/
theorem c5_amended_exact_idempotence (env env2 : Env) (now now2 : Int)
    (r : Range) (t : Track) :
    (streamAcquire env now (some r) t).track.streams.length ≤ t.streams.length + 1 ∧
    (streamAcquire env2 now2 (some r)
        (streamAcquire env now (some r) t).track).track.streams =
      (streamAcquire env now (some r) t).track.streams ∧
    (∀ i m, t.info = some i → i.hasUri = true → t.metadata = some m →
      (streamAcquire env2 now2 (some r)
          (streamAcquire env now (some r) t).track).result =
        (streamAcquire env now (some r) t).result) := by
  rcases hlk : lookupStream t.streams r.tuple with _ | s
  · rcases hscan : scanStreams r t.streams with _ | e
    · -- creation path
      have hss : (setup env now
          { t with streams :=
              t.streams ++ [(r.tuple, Stream.init t.streams.length r)] }).track.streams =
          t.streams ++ [(r.tuple, Stream.init t.streams.length r)] :=
        setup_streams env now _
      rcases hv : infoValid (setup env now
          { t with streams :=
              t.streams ++ [(r.tuple, Stream.init t.streams.length r)] }).track.info with _ | _
      · -- info invalid after setup: the first call returns none
        have hfirst : streamAcquire env now (some r) t =
            ⟨(setup env now
                { t with streams :=
                    t.streams ++ [(r.tuple, Stream.init t.streams.length r)] }).track,
              none,
              (setup env now
                { t with streams :=
                    t.streams ++ [(r.tuple, Stream.init t.streams.length r)] }).events,
              (setup env now
                { t with streams :=
                    t.streams ++ [(r.tuple, Stream.init t.streams.length r)] }).exc⟩ := by
          simp [streamAcquire, hlk, hscan, hv]
        have hs1 : (streamAcquire env now (some r) t).track.streams =
            t.streams ++ [(r.tuple, Stream.init t.streams.length r)] := by
          rw [hfirst]; exact hss
        have hlk2 : lookupStream (streamAcquire env now (some r) t).track.streams r.tuple =
            some (Stream.init t.streams.length r) := by
          rw [hs1]; exact lookupStream_append _ _ _ hlk
        refine ⟨by rw [hs1]; simp, ?_, ?_⟩
        · generalize hT : (streamAcquire env now (some r) t).track = T1 at hlk2 ⊢
          have hst := setup_streams env2 now2 T1
          simp [streamAcquire, hlk2, hst]
        · intro i m hi hu hm
          exfalso
          have hsi : (setup env now
              { t with streams :=
                  t.streams ++ [(r.tuple, Stream.init t.streams.length r)] }).track.info =
              some i :=
            setup_info_of_some env now _ i hi
          rw [hsi] at hv
          simp [infoValid, hu] at hv
      · -- info valid after setup: the first call returns the new key
        have hfirst : streamAcquire env now (some r) t =
            ⟨limit_set (setup env now
                { t with streams :=
                    t.streams ++ [(r.tuple, Stream.init t.streams.length r)] }).track,
              some r.tuple,
              (setup env now
                { t with streams :=
                    t.streams ++ [(r.tuple, Stream.init t.streams.length r)] }).events,
              (setup env now
                { t with streams :=
                    t.streams ++ [(r.tuple, Stream.init t.streams.length r)] }).exc⟩ := by
          simp [streamAcquire, hlk, hscan, hv]
        have hres1 : (streamAcquire env now (some r) t).result = some r.tuple := by
          rw [hfirst]
        have hlk2 : ∃ ns, lookupStream (streamAcquire env now (some r) t).track.streams r.tuple =
            some ns := by
          have ht1 : (streamAcquire env now (some r) t).track =
              limit_set (setup env now
                { t with streams :=
                    t.streams ++ [(r.tuple, Stream.init t.streams.length r)] }).track := by
            rw [hfirst]
          rw [ht1]
          rcases limit_set_cases (setup env now
              { t with streams :=
                  t.streams ++ [(r.tuple, Stream.init t.streams.length r)] }).track with hc | hc
          · rw [hc, hss]
            exact ⟨_, lookupStream_append _ _ _ hlk⟩
          · rw [hc]
            refine ⟨limitApply r.tuple (Stream.init t.streams.length r), ?_⟩
            dsimp only
            rw [lookupStream_map, hss, lookupStream_append _ _ _ hlk]
            rfl
        obtain ⟨ns2, hns2⟩ := hlk2
        have hlen : (streamAcquire env now (some r) t).track.streams.length =
            t.streams.length + 1 := by
          have ht1 : (streamAcquire env now (some r) t).track =
              limit_set (setup env now
                { t with streams :=
                    t.streams ++ [(r.tuple, Stream.init t.streams.length r)] }).track := by
            rw [hfirst]
          rw [ht1]
          rcases limit_set_cases (setup env now
              { t with streams :=
                  t.streams ++ [(r.tuple, Stream.init t.streams.length r)] }).track with hc | hc
          · rw [hc, hss]; simp
          · rw [hc]; simp [hss]
        refine ⟨by omega, ?_, ?_⟩
        · generalize hT : (streamAcquire env now (some r) t).track = T1 at hns2 ⊢
          have hst := setup_streams env2 now2 T1
          simp [streamAcquire, hns2, hst]
        · intro i m hi hu hm
          rw [hres1]
          generalize hT : (streamAcquire env now (some r) t).track = T1 at hns2 ⊢
          simp [streamAcquire, hns2]
    · -- compatible-match path
      have hfirst : streamAcquire env now (some r) t =
          ⟨(setup env now t).track, some e.1, (setup env now t).events,
            (setup env now t).exc⟩ := by
        simp [streamAcquire, hlk, hscan]
      have hs1 : (streamAcquire env now (some r) t).track.streams = t.streams := by
        rw [hfirst]; exact setup_streams env now t
      have hres1 : (streamAcquire env now (some r) t).result = some e.1 := by
        rw [hfirst]
      have hlk2 : lookupStream (streamAcquire env now (some r) t).track.streams r.tuple =
          none := by
        rw [hs1]; exact hlk
      have hscan2 : scanStreams r (streamAcquire env now (some r) t).track.streams = some e := by
        rw [hs1]; exact hscan
      refine ⟨by rw [hs1]; omega, ?_, ?_⟩
      · generalize hT : (streamAcquire env now (some r) t).track = T1 at hlk2 hscan2 ⊢
        have hst := setup_streams env2 now2 T1
        simp [streamAcquire, hlk2, hscan2, hst]
      · intro i m hi hu hm
        rw [hres1]
        generalize hT : (streamAcquire env now (some r) t).track = T1 at hlk2 hscan2 ⊢
        simp [streamAcquire, hlk2, hscan2]
  · -- exact-match path
    have hfirst : streamAcquire env now (some r) t =
        ⟨(setup env now t).track, some r.tuple, (setup env now t).events,
          (setup env now t).exc⟩ := by
      simp [streamAcquire, hlk]
    have hs1 : (streamAcquire env now (some r) t).track.streams = t.streams := by
      rw [hfirst]; exact setup_streams env now t
    have hres1 : (streamAcquire env now (some r) t).result = some r.tuple := by
      rw [hfirst]
    have hlk2 : lookupStream (streamAcquire env now (some r) t).track.streams r.tuple =
        some s := by
      rw [hs1]; exact hlk
    refine ⟨by rw [hs1]; omega, ?_, ?_⟩
    · generalize hT : (streamAcquire env now (some r) t).track = T1 at hlk2 ⊢
      have hst := setup_streams env2 now2 T1
      simp [streamAcquire, hlk2, hst]
    · intro i m hi hu hm
      rw [hres1]
      generalize hT : (streamAcquire env now (some r) t).track = T1 at hlk2 ⊢
      simp [streamAcquire, hlk2]


/-- Witness for C2's corrected statement on the exact-match path. -/
theorem c2_witness :
    lookupStream tNoInfo.streams (Range.mk 0 none).tuple = some sWhole ∧
    (streamAcquire envErr 0 (some (Range.mk 0 none)) tNoInfo).result =
      some (Range.mk 0 none).tuple :=
  ⟨rfl, (c2_amended_info_validation envErr 0 (Range.mk 0 none) tNoInfo).1 sWhole rfl⟩

/-- Witness for C4's corrected statement at concrete sessions. -/
theorem c4_witness :
    tScenario.metadata.isSome = true ∧
    (setup envOk 0 tScenario).metadataFetches = 0 ∧
    tEmptyNoInfo.info = none ∧
    (setup envErr 0 tEmptyNoInfo).track.info = none ∧
    (setup envErr 1 (setup envErr 0 tEmptyNoInfo).track).infoFetches = 1 :=
  ⟨rfl,
   (c4_amended_setup_once envOk envOk 0 0 tScenario).1 rfl,
   rfl,
   ((c4_amended_setup_once envErr envErr 0 1 tEmptyNoInfo).2.2.2.2.2 rfl (Or.inl rfl)).1,
   ((c4_amended_setup_once envErr envErr 0 1 tEmptyNoInfo).2.2.2.2.2 rfl (Or.inl rfl)).2⟩

/-- Witness for C5's corrected statement on a compatible-match scenario. -/
theorem c5_witness :
    tScenario.info = some iFix ∧ iFix.hasUri = true ∧ tScenario.metadata = some mFix ∧
    (streamAcquire envTimeout 1 (some (Range.mk 2000000 none))
        (streamAcquire envTimeout 0 (some (Range.mk 2000000 none)) tScenario).track).result =
      (streamAcquire envTimeout 0 (some (Range.mk 2000000 none)) tScenario).result :=
  ⟨rfl, rfl, rfl,
   (c5_amended_exact_idempotence envTimeout envTimeout 0 1
       (Range.mk 2000000 none) tScenario).2.2 iFix mFix rfl rfl rfl⟩

/-- Witness for C6's corrected statement at concrete sessions. -/
theorem c6_witness :
    limit_set Track.init = Track.init ∧
    limit_set tArbiter =
      { tArbiter with streams := tArbiter.streams.map fun p =>
          if p.1.1 = 0 ∧ (p.1.2 = none ∨ p.1.2 = some 0) then
            (p.1, { p.2 with on_reading := false })
          else
            (p.1, { p.2 with buffered_subs := p.2.buffered_subs + 1 }) } :=
  ⟨(c6_amended_arbiter Track.init).1 (Or.inl (by decide)),
   (c6_amended_arbiter tArbiter).2 (by decide)
     ⟨((0, some 0), sZeroZero), by decide, by decide⟩⟩

/-- Witness for C7 on a playing session. -/
theorem c7_witness :
    (tPlaying.playing = true ∧ tPlaying.ended = false) ∧
    (trackEnd 20 tPlaying).2.2 = none ∧
    (trackEnd 20 tPlaying).1 = { tPlaying with ended := true } ∧
    (∃ l p, (trackEnd 20 tPlaying).2.1 = [Event.ended l p] ∧
       position 20 tPlaying = Except.ok p) ∧
    (trackEnd 30 (trackEnd 20 tPlaying).1).1 = (trackEnd 20 tPlaying).1 ∧
    (trackEnd 30 (trackEnd 20 tPlaying).1).2.1 = [Event.warnInvalidEnd] :=
  ⟨⟨rfl, rfl⟩,
   (c7_end_effective_once 20 30 tPlaying
       (fun _ => ⟨⟨mFix, rfl⟩, iFix, 42, rfl, rfl⟩)).1 ⟨rfl, rfl⟩⟩

/-- Witness for C8's corrected statement on a playing session. -/
theorem c8_witness :
    tPlaying.metadata = some mFix ∧ (0 : Int) ≤ mFix.duration ∧
    ∃ p, position 20 tPlaying = Except.ok p ∧ 0 ≤ p ∧ p ≤ mFix.duration ∧
      (tPlaying.reading_start = none → p = 0) ∧
      (∀ rs, tPlaying.reading_start = some rs →
        p = min ((20 - rs) * 1000) mFix.duration) :=
  ⟨rfl, by decide,
   c8_amended_position 20 tPlaying mFix rfl (by decide)
     (by
       intro rs h
       have h2 : rs = 10 := by
         have h3 : (some 10 : Option Int) = some rs := h
         injection h3 with h4
         omega
       omega)⟩

/-- Witness for C9's corrected statement on a session with metadata
fetched. -/
theorem c9_witness :
    tEmptyNoInfo.playing = false ∧ tEmptyNoInfo.metadata.isSome = true ∧
    (on_track_uri 0 (Response.mk (some iFix)) tEmptyNoInfo).1.playing = true :=
  ⟨rfl, rfl,
   ((c9_amended_resolver_payload 0 tEmptyNoInfo (Response.mk (some iFix)) rfl rfl).2.2
       iFix 42 rfl rfl).2.1⟩

/-- Witness for C10 on a session whose resolution errored. -/
theorem c10_witness :
    (streamAcquire envErr 0 (some (Range.mk 0 none)) tEmptyNoInfo).result = none ∧
    (streamAcquire envErr 1 (some (Range.mk 0 none))
        (streamAcquire envErr 0 (some (Range.mk 0 none)) tEmptyNoInfo).track).result =
      some (Range.mk 0 none).tuple :=
  ⟨by decide,
   (c10_failed_acquisition_registry envErr envErr 0 1 (Range.mk 0 none) tEmptyNoInfo
       (by decide)).2.2.1⟩

end SpotifyTrack
